/-
  Verification of the NOVA predictive-coding engine
  (Virtual-Humans/nova, `src/predictive_coding/02_predcod_nova.py` and
  `src/virtual_human/learning_history.py`).

  The numeric model uses real numbers: Python floats are modelled by ℝ
  (ignoring rounding), and `np.std` by the population standard deviation
  (ddof = 0), which is numpy's default.  Where the behaviour on NaN and
  infinities matters (signal validation and the prediction unit fed a
  non-finite observation) a separate symbolic float type `PyFloat` with
  IEEE-754 special-value propagation is used.
-/
import Mathlib

namespace Nova

/-! ## Basic numeric helpers (numpy counterparts) -/

/-- Arithmetic mean of a list, `np.mean`; division by zero yields 0 for `[]`
(the code never takes the mean of an empty window on the paths modelled). -/
noncomputable def listMean (xs : List ℝ) : ℝ := xs.sum / xs.length

/-- Population variance (`np.var`, ddof = 0): mean of squared deviations. -/
noncomputable def popVar (xs : List ℝ) : ℝ :=
  (xs.map (fun x => (x - listMean xs) ^ 2)).sum / xs.length

/-- Population standard deviation, `np.std` with its default ddof = 0. -/
noncomputable def listStd (xs : List ℝ) : ℝ := Real.sqrt (popVar xs)

/-- `np.clip(x, lo, hi)`. -/
noncomputable def clip (x lo hi : ℝ) : ℝ := min (max x lo) hi

theorem clip_mem (x lo hi : ℝ) (h : lo ≤ hi) : lo ≤ clip x lo hi ∧ clip x lo hi ≤ hi := by
  constructor
  · exact le_min (le_max_right x lo) h
  · exact min_le_right _ _

/-- `clip` onto `[lo, hi]` does not move a point further from any `v ∈ [lo, hi]`. -/
theorem abs_sub_clip_le {v lo hi : ℝ} (x : ℝ) (hlo : lo ≤ v) (hhi : v ≤ hi) :
    |v - clip x lo hi| ≤ |v - x| := by
  unfold clip
  rcases le_or_lt x lo with h1 | h1
  · rw [max_eq_right h1, min_eq_left (le_trans hlo hhi)]
    rw [abs_of_nonneg (by linarith), abs_of_nonneg (by linarith)]
    linarith
  · rw [max_eq_left h1.le]
    rcases le_or_lt x hi with h2 | h2
    · rw [min_eq_left h2]
    · rw [min_eq_right h2.le]
      rw [abs_of_nonpos (by linarith), abs_of_nonpos (by linarith)]
      linarith

theorem listMean_singleton (x : ℝ) : listMean [x] = x := by
  simp [listMean]

theorem popVar_singleton (x : ℝ) : popVar [x] = 0 := by
  simp [popVar, listMean_singleton]

theorem listStd_singleton (x : ℝ) : listStd [x] = 0 := by
  simp [listStd, popVar_singleton]

theorem popVar_nil : popVar [] = 0 := by
  simp [popVar]

theorem listStd_nil : listStd [] = 0 := by
  simp [listStd, popVar_nil]

/-! ## Bounded FIFO push

Both `ReactiveLayer._update_error_history` and the window handling in
`ResponsiveLayer.process_context` / `EmotionalMomentum.update` follow the
same idiom: `xs.append(e)` then `if len(xs) > cap: xs.pop(0)`. -/

def pushBounded {α : Type} (xs : List α) (e : α) (cap : ℕ) : List α :=
  let ys := xs ++ [e]
  if cap < ys.length then ys.tail else ys

/-! ## ReactiveLayer (source lines 94-150) -/

structure ReactiveState where
  emotional_state : ℝ
  attention_level : ℝ
  prediction_error : ℝ
  base_learning_rate : ℝ
  recent_errors : List ℝ
  memory_size : ℕ


/-- `ReactiveLayer.__init__(learning_rate=0.3, memory_size=5)`. -/
def ReactiveState.init : ReactiveState :=
  { emotional_state := 0
    attention_level := 1
    prediction_error := 0
    base_learning_rate := 0.3
    recent_errors := []
    memory_size := 5 }

/-- `ReactiveLayer._adaptive_learning_rate` (lines 106-111): the base rate on
an empty history, otherwise `base * (1 + np.std(recent_errors))`.  The `error`
argument of the Python method is unused there, as in the source. -/
noncomputable def adaptiveLearningRate (base : ℝ) (recentErrors : List ℝ) : ℝ :=
  if recentErrors ≠ [] then base * (1 + listStd recentErrors) else base

/-- What `process_signal` returns (lines 134-140): the dict keys as fields. -/
structure ReactiveOutput where
  emotion : ℝ
  prediction_error : ℝ
  learning_rate : ℝ
  attention : ℝ
  response_time : ℝ


/-- The `except`-branch result of `process_signal` (lines 142-150): previous
emotional state, zero error, base learning rate, read from `self` at the
moment the handler runs. -/
def reactiveFallback (st : ReactiveState) : ReactiveOutput :=
  { emotion := st.emotional_state
    prediction_error := 0
    learning_rate := st.base_learning_rate
    attention := st.attention_level
    response_time := 0.05 }

/-- The learning rate actually used by `process_signal` on observation `v`:
the error is pushed onto `recent_errors` (line 128) *before*
`_adaptive_learning_rate` reads that history (line 129). -/
noncomputable def rateUsed (st : ReactiveState) (v : ℝ) : ℝ :=
  adaptiveLearningRate st.base_learning_rate
    (pushBounded st.recent_errors (v - st.emotional_state) st.memory_size)

/-- `ReactiveLayer.process_signal`, normal (no-exception) path, lines 119-140:
signed error, error-history push, adaptive rate, clipped estimate update. -/
noncomputable def processSignal (st : ReactiveState) (v : ℝ) :
    ReactiveState × ReactiveOutput :=
  let error := v - st.emotional_state
  let st1 := { st with prediction_error := error }
  let st2 := { st1 with recent_errors := pushBounded st1.recent_errors error st1.memory_size }
  let rate := adaptiveLearningRate st2.base_learning_rate st2.recent_errors
  let st3 := { st2 with emotional_state := clip (st2.emotional_state + rate * error) (-1) 1 }
  (st3,
    { emotion := st3.emotional_state
      prediction_error := error
      learning_rate := rate
      attention := st3.attention_level
      response_time := 0.05 })

/-- Fault points inside the `try` block of `process_signal`: an injected
exception before the first state mutation (line 126), after
`self.prediction_error` is set, or after the error-history push (line 128);
the remaining statements only read state or build the return dict. -/
inductive ReactiveFault
  | beforeAll
  | afterPredError
  | afterHistPush
  deriving DecidableEq

/-- `process_signal` with an optional injected exception: the statements
preceding the fault point execute, then control jumps to the `except` handler
(lines 142-150), which returns `reactiveFallback` of the state as mutated so
far. -/
noncomputable def reactiveStep (st : ReactiveState) (v : ℝ) (fault : Option ReactiveFault) :
    ReactiveState × ReactiveOutput :=
  match fault with
  | none => processSignal st v
  | some .beforeAll => (st, reactiveFallback st)
  | some .afterPredError =>
      let st1 := { st with prediction_error := v - st.emotional_state }
      (st1, reactiveFallback st1)
  | some .afterHistPush =>
      let st1 := { st with prediction_error := v - st.emotional_state }
      let st2 := { st1 with recent_errors := pushBounded st1.recent_errors (v - st.emotional_state) st1.memory_size }
      (st2, reactiveFallback st2)

/-- Folding a list of observations through the reactive layer. -/
noncomputable def processSignals (st : ReactiveState) (vs : List ℝ) : ReactiveState :=
  vs.foldl (fun s v => (processSignal s v).1) st

theorem adaptiveLearningRate_eq (base : ℝ) (h : List ℝ) :
    adaptiveLearningRate base h = base * (1 + listStd h) := by
  unfold adaptiveLearningRate
  by_cases hh : h = []
  · subst hh; simp [listStd_nil]
  · simp [hh]

/-! ## EmotionalMomentum (source lines 55-74) -/

structure EmotionalMomentum where
  history : List ℝ
  momentum : ℝ
  volatility : ℝ

/-- `EmotionalMomentum.__init__`. -/
def EmotionalMomentum.init : EmotionalMomentum :=
  { history := [], momentum := 0, volatility := 0 }

/-- Python `xs[-1]` (guarded in the source by a length check). -/
def last1 (l : List ℝ) : ℝ := l.reverse.headD 0

/-- Python `xs[-2]` (guarded in the source by a length check). -/
def last2 (l : List ℝ) : ℝ := l.reverse.tail.headD 0

/-- `EmotionalMomentum.update` (lines 62-74): append with capacity 5, blend
momentum once ≥ 2 entries exist, recompute volatility as `np.std` of the whole
retained history once ≥ 3 entries exist. -/
noncomputable def EmotionalMomentum.update (t : EmotionalMomentum) (value : ℝ) :
    EmotionalMomentum :=
  let h := pushBounded t.history value 5
  let m := if 2 ≤ h.length then 0.7 * t.momentum + 0.3 * (last1 h - last2 h) else t.momentum
  let vol := if 3 ≤ h.length then listStd h else t.volatility
  { history := h, momentum := m, volatility := vol }

/-! ## InteractionState and the engagement classifier (source lines 46-53, 161-195) -/

inductive InteractionState
  | BUILDING_RAPPORT
  | MAINTAINING_ENGAGEMENT
  | RECOVERING_ATTENTION
  | DEEPENING_INTERACTION
  | EMOTIONAL_TRANSITION
  | RECALIBRATING
  | FLOW_STATE
  deriving DecidableEq

/-- Python `xs[-n:]`: the last at-most-`n` elements. -/
def lastN {α : Type} (n : ℕ) (l : List α) : List α := l.drop (l.length - n)

/-- The momentum tracker built inside `_analyze_engagement_pattern`
(lines 168-170): a fresh `EmotionalMomentum` updated with each recent value. -/
noncomputable def momentumOf (vs : List ℝ) : EmotionalMomentum :=
  vs.foldl (fun t v => t.update v) EmotionalMomentum.init

/-- `ResponsiveLayer._analyze_engagement_pattern` (lines 161-195), as a
function of the values of the signals in the context window. -/
noncomputable def analyzeEngagementPattern (window : List ℝ) : InteractionState :=
  if window.length < 3 then .BUILDING_RAPPORT else
    let recent := lastN 3 window
    let tracker := momentumOf recent
    let trend := listMean recent
    let recent_volatility := tracker.volatility
    if |tracker.momentum| > 0.5 then .EMOTIONAL_TRANSITION
    else if trend > 0.6 ∧ recent_volatility < 0.2 then .FLOW_STATE
    else if recent_volatility > 0.4 then
      (if |trend| < 0.2 then .RECALIBRATING else .RECOVERING_ATTENTION)
    else if trend > 0.3 ∧ recent_volatility < 0.3 then .DEEPENING_INTERACTION
    else if trend < -0.2 then .RECOVERING_ATTENTION
    else .MAINTAINING_ENGAGEMENT

/-- Modelled from the spec's words (§4.4): the classifier as a decision table
over the window statistics, rules 1-7 evaluated in priority order, first match
wins.  Used to compare the code's classifier against the spec's table. -/
noncomputable def specClassify (n : ℕ) (mean momentum volatility : ℝ) :
    InteractionState :=
  if n < 3 then .BUILDING_RAPPORT
  else if |momentum| > 0.5 then .EMOTIONAL_TRANSITION
  else if mean > 0.6 ∧ volatility < 0.2 then .FLOW_STATE
  else if volatility > 0.4 then
    (if |mean| < 0.2 then .RECALIBRATING else .RECOVERING_ATTENTION)
  else if mean > 0.3 ∧ volatility < 0.3 then .DEEPENING_INTERACTION
  else if mean < -0.2 then .RECOVERING_ATTENTION
  else .MAINTAINING_ENGAGEMENT

/-- Feeding exactly the three recent values into a fresh tracker (as
`_analyze_engagement_pattern` does) yields the blended momentum and the
`np.std` of those three values. -/
theorem momentumOf_three (a b c : ℝ) :
    momentumOf [a, b, c] =
      { history := [a, b, c]
        momentum := 0.7 * (0.7 * 0 + 0.3 * (b - a)) + 0.3 * (c - b)
        volatility := listStd [a, b, c] } := by
  simp [momentumOf, EmotionalMomentum.update, EmotionalMomentum.init,
    pushBounded, last1, last2, List.foldl]

theorem lastN_length_three {w : List ℝ} (h : 3 ≤ w.length) :
    ∃ a b c, lastN 3 w = [a, b, c] := by
  have hlen : (lastN 3 w).length = 3 := by
    simp only [lastN, List.length_drop]
    omega
  match hl : lastN 3 w, hlen with
  | [a, b, c], _ => exact ⟨a, b, c, rfl⟩

/-- The code's classifier agrees with the spec's decision table evaluated at
the window statistics (mean, tracker momentum, `np.std`) of the last three
values. -/
theorem analyze_eq_specClassify (w : List ℝ) :
    analyzeEngagementPattern w =
      specClassify w.length (listMean (lastN 3 w)) (momentumOf (lastN 3 w)).momentum
        (listStd (lastN 3 w)) := by
  by_cases hw : w.length < 3
  · simp [analyzeEngagementPattern, specClassify, hw]
  · obtain ⟨a, b, c, h3⟩ := lastN_length_three (w := w) (by omega)
    have hvol : (momentumOf (lastN 3 w)).volatility = listStd (lastN 3 w) := by
      rw [h3, momentumOf_three]
    simp only [analyzeEngagementPattern, specClassify, hw, if_false, hvol]

/-- C1 (amended).  The interaction-state classifier is a pure deterministic
function of the window statistics, evaluated as the spec's decision table in
the priority order of rules 1-7 (first conjunct: the code's classifier equals
the spec table at the stats of the last three values).  Any stats satisfying
both the rule-2 condition (`|momentum| > 0.5`) and the rule-3 condition
(`mean > 0.6` and `volatility < 0.2`) resolve to `EMOTIONAL_TRANSITION`
(second conjunct).  Amendment: stats with `volatility > 0.4` and
`mean < -0.2` are decided by rule 4 (`RECOVERING_ATTENTION`) rather than
rule 6 only when rule 2 does not fire first, i.e. when additionally
`|momentum| ≤ 0.5` (third conjunct); without that proviso rule 2 wins, see
the counterexample. -/
theorem claim_C1_classifier_priority :
    (∀ w : List ℝ,
        analyzeEngagementPattern w =
          specClassify w.length (listMean (lastN 3 w))
            (momentumOf (lastN 3 w)).momentum (listStd (lastN 3 w))) ∧
    (∀ (n : ℕ) (mean momentum volatility : ℝ), 3 ≤ n →
        |momentum| > 0.5 → mean > 0.6 ∧ volatility < 0.2 →
        specClassify n mean momentum volatility = .EMOTIONAL_TRANSITION) ∧
    (∀ (n : ℕ) (mean momentum volatility : ℝ), 3 ≤ n →
        volatility > 0.4 → mean < -0.2 → |momentum| ≤ 0.5 →
        specClassify n mean momentum volatility = .RECOVERING_ATTENTION) := by
  refine ⟨analyze_eq_specClassify, ?_, ?_⟩
  · intro n mean momentum volatility h1 h2 _
    unfold specClassify
    rw [if_neg (by omega), if_pos h2]
  · intro n mean momentum volatility h1 h2 h3 h4
    unfold specClassify
    rw [if_neg (by omega), if_neg (not_lt.mpr h4),
      if_neg (by rintro ⟨h5, -⟩; linarith), if_pos h2,
      if_neg (by rw [not_lt]; calc (0.2 : ℝ) ≤ -mean := by linarith
                                 _ ≤ |mean| := neg_le_abs mean)]

/-- Witness for C1: concrete stats discharging the hypotheses of the second
and third conjuncts. -/
theorem claim_C1_classifier_priority_witness :
    ((3 : ℕ) ≤ 3 ∧ |(3/5 : ℝ)| > 0.5 ∧ ((7/10 : ℝ) > 0.6 ∧ (1/10 : ℝ) < 0.2) ∧
      specClassify 3 (7/10) (3/5) (1/10) = .EMOTIONAL_TRANSITION) ∧
    ((3 : ℕ) ≤ 3 ∧ (1/2 : ℝ) > 0.4 ∧ (-(1/2) : ℝ) < -0.2 ∧ |(3/10 : ℝ)| ≤ 0.5 ∧
      specClassify 3 (-(1/2)) (3/10) (1/2) = .RECOVERING_ATTENTION) := by
  have habs1 : |(3/5 : ℝ)| > 0.5 := by rw [abs_of_pos (by norm_num)]; norm_num
  have habs2 : |(3/10 : ℝ)| ≤ 0.5 := by rw [abs_of_pos (by norm_num)]; norm_num
  exact ⟨⟨le_refl 3, habs1, ⟨by norm_num, by norm_num⟩,
      claim_C1_classifier_priority.2.1 3 (7/10) (3/5) (1/10) (le_refl 3) habs1
        ⟨by norm_num, by norm_num⟩⟩,
    ⟨le_refl 3, by norm_num, by norm_num, habs2,
      claim_C1_classifier_priority.2.2 3 (-(1/2)) (3/10) (1/2) (le_refl 3)
        (by norm_num) (by norm_num) habs2⟩⟩

/-- C1 counterexample: the window `[-1, -0.63, 1]` has mean `-0.21 < -0.2` and
volatility `> 0.4`, so the claim as stated requires rule 4
(`RECOVERING_ATTENTION`); but its tracker momentum is `0.5667 > 0.5`, so
rule 2 fires first and the classifier returns `EMOTIONAL_TRANSITION`. -/
theorem claim_C1_counterexample :
    listMean (lastN 3 [-1, -63/100, 1]) < -0.2 ∧
    listStd (lastN 3 [-1, -63/100, 1]) > 0.4 ∧
    analyzeEngagementPattern [-1, -63/100, 1] = .EMOTIONAL_TRANSITION ∧
    InteractionState.EMOTIONAL_TRANSITION ≠ .RECOVERING_ATTENTION := by
  have h3 : lastN 3 [(-1 : ℝ), -63/100, 1] = [-1, -63/100, 1] := by
    simp [lastN]
  refine ⟨?_, ?_, ?_, by intro h; exact InteractionState.noConfusion h⟩
  · rw [h3]
    simp only [listMean, List.sum_cons, List.sum_nil, List.length_cons,
      List.length_nil]
    norm_num
  · rw [h3]
    unfold listStd
    rw [gt_iff_lt, Real.lt_sqrt (by norm_num)]
    simp only [popVar, listMean, List.map_cons, List.map_nil, List.sum_cons,
      List.sum_nil, List.length_cons, List.length_nil]
    norm_num
  · unfold analyzeEngagementPattern
    rw [if_neg (by simp)]
    simp only [h3, momentumOf_three]
    rw [if_pos (by rw [abs_of_pos (by norm_num)]; norm_num)]

/-- C10 (confirmed).  For windows with at least 3 entries the classified
interaction state depends only on the values of the last three signals: two
windows agreeing on their final three values classify identically, regardless
of earlier entries or total length. -/
theorem claim_C10_last_three_noninterference :
    ∀ w1 w2 : List ℝ, 3 ≤ w1.length → 3 ≤ w2.length →
      lastN 3 w1 = lastN 3 w2 →
      analyzeEngagementPattern w1 = analyzeEngagementPattern w2 := by
  intro w1 w2 h1 h2 h
  rw [analyze_eq_specClassify w1, analyze_eq_specClassify w2, h]
  have g1 : ¬ w1.length < 3 := by omega
  have g2 : ¬ w2.length < 3 := by omega
  simp only [specClassify, g1, g2, if_false]

/-- Witness for C10: a four-entry and a three-entry window sharing their last
three values classify identically. -/
theorem claim_C10_last_three_noninterference_witness :
    3 ≤ ([1, 1/10, 1/5, 3/10] : List ℝ).length ∧
    3 ≤ ([1/10, 1/5, 3/10] : List ℝ).length ∧
    lastN 3 [(1 : ℝ), 1/10, 1/5, 3/10] = lastN 3 [(1/10 : ℝ), 1/5, 3/10] ∧
    analyzeEngagementPattern [(1 : ℝ), 1/10, 1/5, 3/10] =
      analyzeEngagementPattern [(1/10 : ℝ), 1/5, 3/10] :=
  ⟨by simp, by simp, by simp [lastN],
    claim_C10_last_three_noninterference _ _ (by simp) (by simp)
      (by simp [lastN])⟩

/-- C2 (confirmed).  `process_signal` returns the signed error
`observation - estimate`, uses the rate the adaptive controller computes from
the unit's recent-error history (which, in the source, already contains the
just-pushed error), and clips the updated estimate into `[-1, 1]`; on the
spec's scenario (estimate 0, base rate 0.3, no prior errors, observe 0.8) it
yields error 0.8, rate 0.3 and new estimate 0.24. -/
theorem claim_C2_prediction_unit_update :
    (∀ (st : ReactiveState) (v : ℝ),
        (processSignal st v).2.prediction_error = v - st.emotional_state ∧
        (processSignal st v).2.learning_rate = rateUsed st v ∧
        (processSignal st v).1.emotional_state =
          clip (st.emotional_state + rateUsed st v * (v - st.emotional_state))
            (-1) 1) ∧
    ((processSignal ReactiveState.init (8/10)).2.prediction_error = 8/10 ∧
      (processSignal ReactiveState.init (8/10)).2.learning_rate = 3/10 ∧
      (processSignal ReactiveState.init (8/10)).1.emotional_state = 24/100) := by
  constructor
  · intro st v
    refine ⟨rfl, rfl, rfl⟩
  · have hpush : pushBounded ([] : List ℝ) (8/10 - 0) 5 = [8/10 - 0] := by
      simp [pushBounded]
    refine ⟨by simp [processSignal, ReactiveState.init], ?_, ?_⟩
    · show adaptiveLearningRate (0.3 : ℝ) (pushBounded [] (8/10 - 0) 5) = 3/10
      rw [hpush, adaptiveLearningRate_eq, listStd_singleton]
      norm_num
    · show clip (0 + adaptiveLearningRate (0.3 : ℝ)
          (pushBounded [] (8/10 - 0) 5) * (8/10 - 0)) (-1) 1 = 24/100
      rw [hpush, adaptiveLearningRate_eq, listStd_singleton]
      unfold clip
      norm_num

/-- C4 counterexample: with base rate 0 (accepted by the constructor without
complaint) a strictly higher standard deviation of recent errors does not
yield a strictly greater rate — both rates are 0. -/
theorem claim_C4_counterexample :
    listStd [(0 : ℝ)] < listStd [(0 : ℝ), 1] ∧
    ¬ adaptiveLearningRate 0 [(0 : ℝ)] < adaptiveLearningRate 0 [(0 : ℝ), 1] := by
  have hvar : popVar [(0 : ℝ), 1] = 1/4 := by
    simp only [popVar, listMean, List.sum_cons, List.sum_nil, List.map_cons,
      List.map_nil, List.length_cons, List.length_nil]
    norm_num
  constructor
  · rw [listStd_singleton]
    unfold listStd
    rw [hvar]
    exact Real.sqrt_pos.mpr (by norm_num)
  · rw [adaptiveLearningRate_eq, adaptiveLearningRate_eq, zero_mul, zero_mul]
    exact lt_irrefl 0

/-- C4 (amended).  The adaptive rate controller returns the base rate on an
empty history and `base * (1 + std(recentErrors))` otherwise; for any two
histories with the same *strictly positive* base rate, strictly higher
standard deviation gives a strictly greater rate.  (With base rate 0 the rates
coincide, see the counterexample.) -/
theorem claim_C4_rate_controller :
    (∀ base : ℝ, adaptiveLearningRate base [] = base) ∧
    (∀ (base : ℝ) (h : List ℝ), h ≠ [] →
        adaptiveLearningRate base h = base * (1 + listStd h)) ∧
    (∀ (base : ℝ) (h1 h2 : List ℝ), 0 < base → listStd h1 < listStd h2 →
        adaptiveLearningRate base h1 < adaptiveLearningRate base h2) := by
  refine ⟨fun base => by simp [adaptiveLearningRate], ?_, ?_⟩
  · intro base h hne
    simp [adaptiveLearningRate, hne]
  · intro base h1 h2 hbase hstd
    rw [adaptiveLearningRate_eq, adaptiveLearningRate_eq]
    exact mul_lt_mul_of_pos_left (by linarith) hbase

/-- Witness for C4: base rate 0.3 with histories `[0]` (std 0) and `[0, 1]`
(std 0.5). -/
theorem claim_C4_rate_controller_witness :
    ([(1 : ℝ)] ≠ ([] : List ℝ) ∧
      adaptiveLearningRate (3/10) [(1 : ℝ)] = (3/10) * (1 + listStd [(1 : ℝ)])) ∧
    (0 < (3/10 : ℝ) ∧ listStd [(0 : ℝ)] < listStd [(0 : ℝ), 1] ∧
      adaptiveLearningRate (3/10) [(0 : ℝ)] <
        adaptiveLearningRate (3/10) [(0 : ℝ), 1]) := by
  have hvar : popVar [(0 : ℝ), 1] = 1/4 := by
    simp only [popVar, listMean, List.sum_cons, List.sum_nil, List.map_cons,
      List.map_nil, List.length_cons, List.length_nil]
    norm_num
  have hstd : listStd [(0 : ℝ)] < listStd [(0 : ℝ), 1] := by
    rw [listStd_singleton]
    unfold listStd
    rw [hvar]
    exact Real.sqrt_pos.mpr (by norm_num)
  exact ⟨⟨by simp, claim_C4_rate_controller.2.1 (3/10) [1] (by simp)⟩,
    ⟨by norm_num, hstd,
      claim_C4_rate_controller.2.2 (3/10) [0] [0, 1] (by norm_num) hstd⟩⟩

theorem processSignal_estimate_mem (st : ReactiveState) (v : ℝ) :
    -1 ≤ (processSignal st v).1.emotional_state ∧
      (processSignal st v).1.emotional_state ≤ 1 :=
  clip_mem _ _ _ (by norm_num)

/-- C5 (confirmed).  Starting from the initial reactive state, after any
finite sequence of processed signals with values in `[-1, 1]`, the stored
estimate (`emotional_state`) lies in `[-1, 1]`: each update passes through
`np.clip(·, -1, 1)`. -/
theorem claim_C5_range_invariant :
    ∀ vs : List ℝ, (∀ v ∈ vs, -1 ≤ v ∧ v ≤ 1) →
      -1 ≤ (processSignals ReactiveState.init vs).emotional_state ∧
      (processSignals ReactiveState.init vs).emotional_state ≤ 1 := by
  have key : ∀ (vs : List ℝ) (st : ReactiveState),
      -1 ≤ st.emotional_state → st.emotional_state ≤ 1 →
      -1 ≤ (processSignals st vs).emotional_state ∧
        (processSignals st vs).emotional_state ≤ 1 := by
    intro vs
    induction vs with
    | nil => intro st h1 h2; exact ⟨h1, h2⟩
    | cons v vs ih =>
        intro st h1 h2
        have hstep := processSignal_estimate_mem st v
        exact ih (processSignal st v).1 hstep.1 hstep.2
  intro vs _
  exact key vs ReactiveState.init (by norm_num [ReactiveState.init])
    (by norm_num [ReactiveState.init])

/-- Witness for C5: the signal sequence `[0.8, -0.5]`. -/
theorem claim_C5_range_invariant_witness :
    (∀ v ∈ [(4/5 : ℝ), -(1/2)], -1 ≤ v ∧ v ≤ 1) ∧
    (-1 ≤ (processSignals ReactiveState.init [(4/5 : ℝ), -(1/2)]).emotional_state ∧
      (processSignals ReactiveState.init [(4/5 : ℝ), -(1/2)]).emotional_state ≤ 1) := by
  have hmem : ∀ v ∈ [(4/5 : ℝ), -(1/2)], -1 ≤ v ∧ v ≤ 1 := by
    intro v hv
    fin_cases hv <;> norm_num
  exact ⟨hmem, claim_C5_range_invariant [(4/5 : ℝ), -(1/2)] hmem⟩

/-- C7 counterexample: observe 0 twice from the initial state.  The effective
rate is 0.3 ∈ (0, 2), but both calls report error 0, so the second absolute
error is not strictly smaller than the first. -/
theorem claim_C7_counterexample :
    0 < rateUsed ReactiveState.init 0 ∧ rateUsed ReactiveState.init 0 < 2 ∧
    ¬ |(processSignal (processSignal ReactiveState.init 0).1 0).2.prediction_error| <
        |(processSignal ReactiveState.init 0).2.prediction_error| := by
  have hrate : rateUsed ReactiveState.init 0 = 3/10 := by
    show adaptiveLearningRate (0.3 : ℝ) (pushBounded [] (0 - 0) 5) = 3/10
    rw [show pushBounded ([] : List ℝ) (0 - 0) 5 = [0 - 0] from by simp [pushBounded],
      adaptiveLearningRate_eq, listStd_singleton]
    norm_num
  refine ⟨by rw [hrate]; norm_num, by rw [hrate]; norm_num, ?_⟩
  have e1 : (processSignal ReactiveState.init 0).2.prediction_error = 0 := by
    show (0 : ℝ) - 0 = 0
    norm_num
  have hest : (processSignal ReactiveState.init 0).1.emotional_state = 0 := by
    show clip ((0 : ℝ) + adaptiveLearningRate (0.3 : ℝ)
        (pushBounded [] (0 - 0) 5) * (0 - 0)) (-1) 1 = 0
    rw [show (0 : ℝ) + adaptiveLearningRate (0.3 : ℝ)
        (pushBounded [] (0 - 0) 5) * (0 - 0) = 0 from by ring]
    unfold clip
    norm_num
  have e2 : (processSignal (processSignal ReactiveState.init 0).1 0).2.prediction_error = 0 := by
    show (0 : ℝ) - (processSignal ReactiveState.init 0).1.emotional_state = 0
    rw [hest]
    norm_num
  rw [e1, e2, abs_zero]
  exact lt_irrefl 0

/-- C7 (amended).  Feeding the same observation twice in a row strictly
decreases the absolute error on the second call whenever the effective rate of
the first call lies in (0, 2), the observation and the estimate lie in the
signal range `[-1, 1]` (as every reachable state and validated signal does),
and the first call's error is nonzero.  (With a zero first error both errors
are 0 and no strict decrease occurs, see the counterexample.) -/
theorem claim_C7_monotone_convergence :
    ∀ (st : ReactiveState) (v : ℝ),
      -1 ≤ v → v ≤ 1 → -1 ≤ st.emotional_state → st.emotional_state ≤ 1 →
      v - st.emotional_state ≠ 0 →
      0 < rateUsed st v → rateUsed st v < 2 →
      |(processSignal (processSignal st v).1 v).2.prediction_error| <
        |(processSignal st v).2.prediction_error| := by
  intro st v hv1 hv2 _ _ hne hr1 hr2
  have hfirst : (processSignal st v).2.prediction_error = v - st.emotional_state := rfl
  have hsecond : (processSignal (processSignal st v).1 v).2.prediction_error =
      v - clip (st.emotional_state + rateUsed st v * (v - st.emotional_state)) (-1) 1 :=
    rfl
  rw [hfirst, hsecond]
  have step1 : |v - clip (st.emotional_state +
      rateUsed st v * (v - st.emotional_state)) (-1) 1| ≤
      |v - (st.emotional_state + rateUsed st v * (v - st.emotional_state))| :=
    abs_sub_clip_le _ hv1 hv2
  have step2 : |v - (st.emotional_state +
      rateUsed st v * (v - st.emotional_state))| < |v - st.emotional_state| := by
    rw [show v - (st.emotional_state + rateUsed st v * (v - st.emotional_state)) =
        (1 - rateUsed st v) * (v - st.emotional_state) from by ring, abs_mul]
    have h1r : |1 - rateUsed st v| < 1 := abs_lt.mpr ⟨by linarith, by linarith⟩
    have hpos : 0 < |v - st.emotional_state| := abs_pos.mpr hne
    calc |1 - rateUsed st v| * |v - st.emotional_state|
        < 1 * |v - st.emotional_state| := mul_lt_mul_of_pos_right h1r hpos
      _ = |v - st.emotional_state| := one_mul _
  exact lt_of_le_of_lt step1 step2

/-- Witness for C7: initial state, observation 0.8, effective rate 0.3. -/
theorem claim_C7_monotone_convergence_witness :
    ((4/5 : ℝ) - ReactiveState.init.emotional_state ≠ 0 ∧
      0 < rateUsed ReactiveState.init (4/5) ∧ rateUsed ReactiveState.init (4/5) < 2) ∧
    |(processSignal (processSignal ReactiveState.init (4/5)).1 (4/5)).2.prediction_error| <
      |(processSignal ReactiveState.init (4/5)).2.prediction_error| := by
  have hrate : rateUsed ReactiveState.init (4/5) = 3/10 := by
    show adaptiveLearningRate (0.3 : ℝ) (pushBounded [] (4/5 - 0) 5) = 3/10
    rw [show pushBounded ([] : List ℝ) (4/5 - 0) 5 = [4/5 - 0] from by
        simp [pushBounded],
      adaptiveLearningRate_eq, listStd_singleton]
    norm_num
  have hne : (4/5 : ℝ) - ReactiveState.init.emotional_state ≠ 0 := by
    show (4/5 : ℝ) - 0 ≠ 0
    norm_num
  refine ⟨⟨hne, by rw [hrate]; norm_num, by rw [hrate]; norm_num⟩, ?_⟩
  exact claim_C7_monotone_convergence ReactiveState.init (4/5) (by norm_num)
    (by norm_num) (by norm_num [ReactiveState.init]) (by norm_num [ReactiveState.init])
    hne (by rw [hrate]; norm_num) (by rw [hrate]; norm_num)

/-! ## C8: the momentum/volatility tracker -/

theorem last1_append_two (xs : List ℝ) (a b : ℝ) : last1 (xs ++ [a, b]) = b := by
  simp [last1, List.reverse_append]

theorem last2_append_two (xs : List ℝ) (a b : ℝ) : last2 (xs ++ [a, b]) = a := by
  simp [last2, List.reverse_append]

theorem tail_append_of_ne_nil (xs ys : List ℝ) (h : xs ≠ []) :
    (xs ++ ys).tail = xs.tail ++ ys := by
  cases xs with
  | nil => exact absurd rfl h
  | cons x xs => rfl

theorem momentum_update_eq (t : EmotionalMomentum) (v : ℝ) :
    (t.update v).momentum =
      if 2 ≤ (pushBounded t.history v 5).length then
        0.7 * t.momentum +
          0.3 * (last1 (pushBounded t.history v 5) - last2 (pushBounded t.history v 5))
      else t.momentum := rfl

theorem volatility_update_eq (t : EmotionalMomentum) (v : ℝ) :
    (t.update v).volatility =
      if 3 ≤ (pushBounded t.history v 5).length then
        listStd (pushBounded t.history v 5)
      else t.volatility := rfl

theorem history_update_eq (t : EmotionalMomentum) (v : ℝ) :
    (t.update v).history = pushBounded t.history v 5 := rfl

theorem pushBounded_length (xs : List ℝ) (e : ℝ) (cap : ℕ) :
    (pushBounded xs e cap).length =
      if cap < xs.length + 1 then xs.length else xs.length + 1 := by
  unfold pushBounded
  simp only [List.length_append, List.length_cons, List.length_nil]
  split_ifs with h
  · simp
  · simp

theorem pushBounded_append_form (rest : List ℝ) (prev v : ℝ) :
    ∃ xs : List ℝ, pushBounded (rest ++ [prev]) v 5 = xs ++ [prev, v] := by
  unfold pushBounded
  by_cases h : 5 < ((rest ++ [prev]) ++ [v]).length
  · rw [if_pos h]
    have hne : rest ≠ [] := by
      intro hr
      subst hr
      simp at h
    refine ⟨rest.tail, ?_⟩
    rw [show (rest ++ [prev]) ++ [v] = rest ++ [prev, v] from by simp,
      tail_append_of_ne_nil rest [prev, v] hne]
  · rw [if_neg h]
    exact ⟨rest, by simp⟩

/-- Modelled from the spec's words ("volatility = sample standard deviation of
the last ≤3 values"): the Bessel-corrected (ddof = 1) standard deviation that
the claim asserts.  The source instead computes `np.std` (ddof 0) over the
whole retained history. -/
noncomputable def sampleStdSpec (xs : List ℝ) : ℝ :=
  Real.sqrt ((xs.map (fun x => (x - listMean xs) ^ 2)).sum / ((xs.length - 1 : ℕ) : ℝ))

/-- C8 counterexample: after inserting `0, 0, 0, 1` the tracker's volatility
is `np.std` of the whole retained history `[0,0,0,1]` (= √(3/16)), which is
not the sample standard deviation of the last three values `[0,0,1]`
(= √(1/3)). -/
theorem claim_C8_counterexample :
    (momentumOf [0, 0, 0, 1]).volatility ≠
      sampleStdSpec (lastN 3 (momentumOf [0, 0, 0, 1]).history) := by
  have hist : (momentumOf [(0 : ℝ), 0, 0, 1]).history = [0, 0, 0, 1] := by
    simp [momentumOf, EmotionalMomentum.update, EmotionalMomentum.init, pushBounded]
  have hvol : (momentumOf [(0 : ℝ), 0, 0, 1]).volatility = listStd [0, 0, 0, 1] := by
    simp [momentumOf, EmotionalMomentum.update, EmotionalMomentum.init, pushBounded]
  have h3 : lastN 3 [(0 : ℝ), 0, 0, 1] = [0, 0, 1] := by
    simp [lastN]
  have hs1 : popVar [(0 : ℝ), 0, 0, 1] = 3/16 := by
    simp only [popVar, listMean, List.map_cons, List.map_nil, List.sum_cons,
      List.sum_nil, List.length_cons, List.length_nil]
    norm_num
  have hs2 : sampleStdSpec [(0 : ℝ), 0, 1] = Real.sqrt (1/3) := by
    have e : (([(0 : ℝ), 0, 1].map (fun x => (x - listMean [(0 : ℝ), 0, 1]) ^ 2)).sum /
        (([(0 : ℝ), 0, 1].length - 1 : ℕ) : ℝ)) = 1/3 := by
      simp only [listMean, List.map_cons, List.map_nil, List.sum_cons,
        List.sum_nil, List.length_cons, List.length_nil]
      norm_num
    unfold sampleStdSpec
    rw [e]
  rw [hvol, hist, h3, hs2]
  unfold listStd
  rw [hs1]
  exact ne_of_lt (Real.sqrt_lt_sqrt (by norm_num) (by norm_num))

/-- C8 (amended).  On every insertion the tracker blends momentum by
`m' = 0.7*m + 0.3*(latest - previous)` once at least 2 entries exist (and
leaves it untouched before that); volatility is recomputed once at least
3 entries exist — but as `np.std` (population standard deviation) of the
*entire retained history* (the last at-most-5 values), not the sample
standard deviation of the last at-most-3 values (see the counterexample) —
and is left untouched before that; from a fresh tracker both statistics read
as 0 before their thresholds are met. -/
theorem claim_C8_momentum_tracker :
    (∀ (t : EmotionalMomentum) (v prev : ℝ) (rest : List ℝ),
        t.history = rest ++ [prev] →
        (t.update v).momentum = 0.7 * t.momentum + 0.3 * (v - prev)) ∧
    (∀ (t : EmotionalMomentum) (v : ℝ), t.history = [] →
        (t.update v).momentum = t.momentum) ∧
    (∀ (t : EmotionalMomentum) (v : ℝ), 2 ≤ t.history.length →
        (t.update v).volatility = listStd ((t.update v).history)) ∧
    (∀ (t : EmotionalMomentum) (v : ℝ), t.history.length < 2 →
        (t.update v).volatility = t.volatility) ∧
    (EmotionalMomentum.init.momentum = 0 ∧ EmotionalMomentum.init.volatility = 0 ∧
      (∀ v : ℝ, (EmotionalMomentum.init.update v).momentum = 0 ∧
        (EmotionalMomentum.init.update v).volatility = 0) ∧
      (∀ v w : ℝ, ((EmotionalMomentum.init.update v).update w).volatility = 0)) := by
  refine ⟨?_, ?_, ?_, ?_, rfl, rfl, ?_, ?_⟩
  · intro t v prev rest hh
    obtain ⟨xs, hx⟩ := pushBounded_append_form rest prev v
    rw [momentum_update_eq, hh, hx, last1_append_two, last2_append_two,
      if_pos (by simp)]
  · intro t v hh
    rw [momentum_update_eq, hh, if_neg (by simp [pushBounded])]
  · intro t v hlen
    rw [volatility_update_eq, history_update_eq, if_pos ?_]
    rw [pushBounded_length]
    split_ifs with h <;> omega
  · intro t v hlen
    rw [volatility_update_eq, if_neg ?_]
    rw [pushBounded_length]
    split_ifs with h <;> omega
  · intro v
    constructor
    · rw [momentum_update_eq, if_neg (by simp [EmotionalMomentum.init, pushBounded])]
      rfl
    · rw [volatility_update_eq, if_neg (by simp [EmotionalMomentum.init, pushBounded])]
      rfl
  · intro v w
    have g1 : ¬ 3 ≤ (pushBounded (EmotionalMomentum.init.update v).history w 5).length := by
      rw [history_update_eq]
      simp [EmotionalMomentum.init, pushBounded]
    rw [volatility_update_eq, if_neg g1, volatility_update_eq,
      if_neg (by simp [EmotionalMomentum.init, pushBounded])]
    rfl

/-- Witness for C8: concrete trackers discharging each conjunct's
hypotheses. -/
theorem claim_C8_momentum_tracker_witness :
    (({ history := [(1 : ℝ)], momentum := 0, volatility := 0 } :
        EmotionalMomentum).history = [] ++ [(1 : ℝ)] ∧
      (({ history := [(1 : ℝ)], momentum := 0, volatility := 0 } :
        EmotionalMomentum).update 2).momentum = 0.7 * 0 + 0.3 * (2 - 1)) ∧
    (2 ≤ ({ history := [(0 : ℝ), 1], momentum := 0, volatility := 0 } :
        EmotionalMomentum).history.length ∧
      (({ history := [(0 : ℝ), 1], momentum := 0, volatility := 0 } :
          EmotionalMomentum).update 0).volatility =
        listStd ((({ history := [(0 : ℝ), 1], momentum := 0, volatility := 0 } :
          EmotionalMomentum).update 0).history)) ∧
    (({ history := [(0 : ℝ)], momentum := 0, volatility := 5 } :
        EmotionalMomentum).history.length < 2 ∧
      (({ history := [(0 : ℝ)], momentum := 0, volatility := 5 } :
          EmotionalMomentum).update 1).volatility = 5) := by
  refine ⟨⟨by simp, ?_⟩, ⟨by simp, ?_⟩, ⟨by simp, ?_⟩⟩
  · exact claim_C8_momentum_tracker.1 _ 2 1 [] (by simp)
  · exact claim_C8_momentum_tracker.2.2.1 _ 0 (by simp)
  · exact claim_C8_momentum_tracker.2.2.2.1 _ 1 (by simp)

/-! ## ResponsiveLayer (source lines 152-273)

The textual responses are modelled abstractly: `np.random.choice` over a
state's candidate strings is determinised by an externally supplied index
(the spec's injected randomness source), and a response is identified by the
state whose candidate table was used together with the chosen index.  The
string contents never influence any numeric field or any stored state. -/

/-- Number of candidate response strings per state in `_generate_response`
(lines 197-240). -/
def responseCount : InteractionState → ℕ
  | .BUILDING_RAPPORT => 3
  | .MAINTAINING_ENGAGEMENT => 3
  | .RECOVERING_ATTENTION => 4
  | .DEEPENING_INTERACTION => 3
  | .EMOTIONAL_TRANSITION => 4
  | .RECALIBRATING => 4
  | .FLOW_STATE => 4

/-- A response: one of a state's candidates, or the fixed fallback string
of the `except` branch. -/
inductive ResponseChoice
  | candidate (s : InteractionState) (idx : ℕ)
  | fallbackText
  deriving DecidableEq

/-- `ResponsiveLayer._generate_response`, with `np.random.choice` determinised
by `choice`. -/
def generateResponse (s : InteractionState) (choice : ℕ) : ResponseChoice :=
  .candidate s (choice % responseCount s)

structure ResponsiveState where
  context_window : List ℝ
  context_window_size : ℕ
  current_state : InteractionState

/-- `ResponsiveLayer.__init__(context_window_size=10)`. -/
def ResponsiveState.init : ResponsiveState :=
  { context_window := [], context_window_size := 10,
    current_state := .BUILDING_RAPPORT }

structure ResponsiveOutput where
  predicted_next : ℝ
  response : ResponseChoice
  state : InteractionState
  context_confidence : ℝ

/-- The `except`-branch result of `process_context` (lines 266-273): the
reactive emotion as prediction, the fixed fallback text, `BUILDING_RAPPORT`,
confidence 0.5; it reads nothing from the layer's stored state. -/
def responsiveFallback (reactiveOut : ReactiveOutput) : ResponsiveOutput :=
  { predicted_next := reactiveOut.emotion
    response := .fallbackText
    state := .BUILDING_RAPPORT
    context_confidence := 0.5 }

/-- `ResponsiveLayer.process_context`, normal path, lines 242-264. -/
noncomputable def processContext (st : ResponsiveState) (v : ℝ)
    (reactiveOut : ReactiveOutput) (choice : ℕ) :
    ResponsiveState × ResponsiveOutput :=
  let w := pushBounded st.context_window v st.context_window_size
  let st1 := { st with context_window := w }
  let st2 := { st1 with current_state := analyzeEngagementPattern w }
  let context_pattern := listMean w
  let predicted_next := context_pattern * 0.8 + reactiveOut.emotion * 0.2
  let response := generateResponse st2.current_state choice
  (st2,
    { predicted_next := predicted_next
      response := response
      state := st2.current_state
      context_confidence := (w.length : ℝ) / (st.context_window_size : ℝ) })

/-- Fault points inside the `try` block of `process_context`: before the
window push (line 248), after the push but before `self.current_state` is
reassigned (line 252), or after that (e.g. inside `_generate_response`). -/
inductive ResponsiveFault
  | beforeAll
  | afterWindowPush
  | afterStateSet
  deriving DecidableEq

/-- `process_context` with an optional injected exception, handled as in
lines 266-273. -/
noncomputable def responsiveStep (st : ResponsiveState) (v : ℝ)
    (reactiveOut : ReactiveOutput) (choice : ℕ) (fault : Option ResponsiveFault) :
    ResponsiveState × ResponsiveOutput :=
  match fault with
  | none => processContext st v reactiveOut choice
  | some .beforeAll => (st, responsiveFallback reactiveOut)
  | some .afterWindowPush =>
      let st1 := { st with context_window := pushBounded st.context_window v st.context_window_size }
      (st1, responsiveFallback reactiveOut)
  | some .afterStateSet =>
      let w := pushBounded st.context_window v st.context_window_size
      let st1 := { st with context_window := w }
      let st2 := { st1 with current_state := analyzeEngagementPattern w }
      (st2, responsiveFallback reactiveOut)

/-! ## ReflectiveLayer (source lines 275-352)

The `stage`/`stability` strings and the strategy strings are modelled as
closed enumerations (their contents never feed back into numeric state); the
f-string sample count is carried as the integer it interpolates. -/

inductive Stage
  | initial
  | developing
  | advanced
  | errorStage
  deriving DecidableEq

inductive Stability
  | unknown
  | stable
  | volatile
  deriving DecidableEq

structure Progress where
  stage : Stage
  confidence : ℝ
  stability : Stability

inductive Strategy
  | buildingUnderstanding (needed : ℤ)
  | maintainSuccessful
  | adjustApproach
  | maintainBasic

/-- The stored interaction `pattern` dict (lines 318-323); the timestamp is
not modelled (never read back). -/
structure ReflectiveRecord where
  signal_value : ℝ
  reactive : ReactiveOutput
  responsive : ResponsiveOutput

structure ReflectiveState where
  interaction_history : List ReflectiveRecord
  min_samples : ℤ
  volatility_threshold : ℝ

/-- `ReflectiveLayer.__init__(min_samples=5, volatility_threshold=0.3)`. -/
def ReflectiveState.init : ReflectiveState :=
  { interaction_history := [], min_samples := 5, volatility_threshold := 0.3 }

/-- `ReflectiveLayer._calculate_volatility` (lines 284-289): `np.std` of the
reactive prediction errors of the recent patterns, 0 below 2 samples. -/
noncomputable def calculateVolatility (recent : List ReflectiveRecord) : ℝ :=
  if recent.length < 2 then 0
  else listStd (recent.map (fun p => p.reactive.prediction_error))

/-- `ReflectiveLayer._analyze_learning_progress` (lines 291-308).  The
unused `avg_error` of line 302 is omitted (it does not reach the result).
`history[-min_samples:]` is modelled for the nonnegative `min_samples` the
constructor default provides. -/
noncomputable def analyzeLearningProgress (st : ReflectiveState) : Progress :=
  if (st.interaction_history.length : ℤ) < st.min_samples then
    { stage := .initial, confidence := 0, stability := .unknown }
  else
    let recent := lastN st.min_samples.toNat st.interaction_history
    let volatility := calculateVolatility recent
    { stage := if (st.interaction_history.length : ℤ) > st.min_samples * 2 then
        .advanced else .developing
      confidence := max 0 (1 - volatility)
      stability := if volatility < st.volatility_threshold then .stable else .volatile }

structure ReflectiveOutput where
  progress : Progress
  strategy : Strategy
  history_length : ℕ
  confidence : ℝ

/-- The `except`-branch result of `analyze_patterns` (lines 345-352), reading
`len(self.interaction_history)` at handler time. -/
def reflectiveFallback (st : ReflectiveState) : ReflectiveOutput :=
  { progress := { stage := .errorStage, confidence := 0, stability := .unknown }
    strategy := .maintainBasic
    history_length := st.interaction_history.length
    confidence := 0 }

/-- `ReflectiveLayer.analyze_patterns`, normal path, lines 310-343. -/
noncomputable def analyzePatterns (st : ReflectiveState) (v : ℝ)
    (reactiveOut : ReactiveOutput) (responsiveOut : ResponsiveOutput) :
    ReflectiveState × ReflectiveOutput :=
  let st' := { st with interaction_history :=
    st.interaction_history ++ [⟨v, reactiveOut, responsiveOut⟩] }
  let progress := analyzeLearningProgress st'
  let strategy :=
    if progress.stage = .initial then
      Strategy.buildingUnderstanding (st'.min_samples - st'.interaction_history.length)
    else if progress.stability = .stable then Strategy.maintainSuccessful
    else Strategy.adjustApproach
  (st',
    { progress := progress
      strategy := strategy
      history_length := st'.interaction_history.length
      confidence := progress.confidence })

/-- Fault points inside the `try` block of `analyze_patterns`: before the
history append (line 324) or after it (inside the progress analysis or the
strategy construction). -/
inductive ReflectiveFault
  | beforeAll
  | afterHistAppend
  deriving DecidableEq

/-- `analyze_patterns` with an optional injected exception, handled as in
lines 345-352. -/
noncomputable def reflectiveStep (st : ReflectiveState) (v : ℝ)
    (reactiveOut : ReactiveOutput) (responsiveOut : ResponsiveOutput)
    (fault : Option ReflectiveFault) : ReflectiveState × ReflectiveOutput :=
  match fault with
  | none => analyzePatterns st v reactiveOut responsiveOut
  | some .beforeAll => (st, reflectiveFallback st)
  | some .afterHistAppend =>
      let st' := { st with interaction_history :=
        st.interaction_history ++ [⟨v, reactiveOut, responsiveOut⟩] }
      (st', reflectiveFallback st')

/-! ## VirtualHuman (source lines 354-426) -/

structure VirtualHuman where
  reactive : ReactiveState
  responsive : ResponsiveState
  reflective : ReflectiveState
  interaction_count : ℕ

def VirtualHuman.init : VirtualHuman :=
  { reactive := ReactiveState.init
    responsive := ResponsiveState.init
    reflective := ReflectiveState.init
    interaction_count := 0 }

structure TickResult where
  reactive : ReactiveOutput
  responsive : ResponsiveOutput
  reflective : ReflectiveOutput
  total_processing_time : ℝ
  interaction_number : ℕ

/-- Which single layer (if any) an injected exception targets in one tick. -/
inductive FaultSpec
  | noFault
  | reactiveF (p : ReactiveFault)
  | responsiveF (p : ResponsiveFault)
  | reflectiveF (p : ReflectiveFault)

def FaultSpec.reactivePoint : FaultSpec → Option ReactiveFault
  | .reactiveF p => some p
  | _ => none

def FaultSpec.responsivePoint : FaultSpec → Option ResponsiveFault
  | .responsiveF p => some p
  | _ => none

def FaultSpec.reflectivePoint : FaultSpec → Option ReflectiveFault
  | .reflectiveF p => some p
  | _ => none

/-- `VirtualHuman._generate_fallback_response` (lines 402-426). -/
def fallbackResponse (cnt : ℕ) : TickResult :=
  { reactive := ⟨0, 0, 0.3, 1, 0.05⟩
    responsive := ⟨0, .fallbackText, .BUILDING_RAPPORT, 0.5⟩
    reflective := ⟨⟨.errorStage, 0, .unknown⟩, .maintainBasic, 0, 0⟩
    total_processing_time := 0.75
    interaction_number := cnt }

/-- `VirtualHuman.process_interaction` (lines 363-400): increment the count,
validate the signal (`SocialSignal.__post_init__` raises unless
`-1 <= value <= 1`; the fixed confidence 0.9 always passes its own check),
then run the three layers in order; a validation failure is caught by the
outer `except` and produces `_generate_fallback_response`. -/
noncomputable def processInteraction (vh : VirtualHuman) (v : ℝ) (choice : ℕ)
    (fault : FaultSpec) : VirtualHuman × TickResult :=
  let cnt := vh.interaction_count + 1
  if -1 ≤ v ∧ v ≤ 1 then
    let r := reactiveStep vh.reactive v fault.reactivePoint
    let p := responsiveStep vh.responsive v r.2 choice fault.responsivePoint
    let f := reflectiveStep vh.reflective v r.2 p.2 fault.reflectivePoint
    ({ reactive := r.1, responsive := p.1, reflective := f.1,
        interaction_count := cnt },
      { reactive := r.2, responsive := p.2, reflective := f.2,
        total_processing_time := r.2.response_time + 0.2 + 0.5,
        interaction_number := cnt })
  else
    ({ vh with interaction_count := cnt }, fallbackResponse cnt)

noncomputable def tickState (vh : VirtualHuman) (v : ℝ) (choice : ℕ)
    (f : FaultSpec) : VirtualHuman :=
  (processInteraction vh v choice f).1

noncomputable def tickResult (vh : VirtualHuman) (v : ℝ) (choice : ℕ)
    (f : FaultSpec) : TickResult :=
  (processInteraction vh v choice f).2

/-! ## C9: construction-time validation of `min_samples`
(`src/virtual_human/learning_history.py` and `ReflectiveLayer.__init__`) -/

structure LearningHistory where
  min_samples : ℤ
  volatility_threshold : ℝ
  history : List ℝ

/-- `LearningHistory.__init__`: raises `ValueError` (the spec's
`ConfigurationError`) for `min_samples < 5`, modelled as `Except`. -/
def LearningHistory.make (minSamples : ℤ) (volThreshold : ℝ) :
    Except String LearningHistory :=
  if minSamples < 5 then
    .error "min_samples must be at least 5 for reliable statistical calculations"
  else
    .ok { min_samples := minSamples, volatility_threshold := volThreshold,
          history := [] }

/-- `ReflectiveLayer.__init__` (lines 278-282): stores its arguments with no
validation whatsoever; wrapped in `Except` to make the absence of any failure
path explicit. -/
def mkReflectiveLayer (minSamples : ℤ) (volThreshold : ℝ) :
    Except String ReflectiveState :=
  .ok { interaction_history := [], min_samples := minSamples,
        volatility_threshold := volThreshold }

/-- C9 counterexample: constructing the reflective layer with
`min_samples = 3 < 5` succeeds (no `ConfigurationError` is raised), contrary
to the claim; only the separate `LearningHistory` class validates. -/
theorem claim_C9_counterexample :
    (3 : ℤ) < 5 ∧
    mkReflectiveLayer 3 (3/10) =
      Except.ok { interaction_history := [], min_samples := 3,
                  volatility_threshold := 3/10 } ∧
    ∀ e : String, mkReflectiveLayer 3 (3/10) ≠ Except.error e := by
  exact ⟨by norm_num, rfl, fun e h => Except.noConfusion h⟩

/-- C9 (amended).  `LearningHistory` rejects `min_samples < 5` at construction
time with `ValueError` and accepts `min_samples ≥ 5`; this check can only fire
at construction.  `ReflectiveLayer.__init__`, however, performs no such
validation: it accepts every `min_samples`, including values below 5 (see the
counterexample). -/
theorem claim_C9_min_samples_validation :
    (∀ (n : ℤ) (thr : ℝ), n < 5 →
        LearningHistory.make n thr = Except.error
          "min_samples must be at least 5 for reliable statistical calculations") ∧
    (∀ (n : ℤ) (thr : ℝ), 5 ≤ n →
        LearningHistory.make n thr = Except.ok
          { min_samples := n, volatility_threshold := thr, history := [] }) ∧
    (∀ (n : ℤ) (thr : ℝ),
        mkReflectiveLayer n thr = Except.ok
          { interaction_history := [], min_samples := n,
            volatility_threshold := thr }) := by
  refine ⟨?_, ?_, fun n thr => rfl⟩
  · intro n thr h
    simp [LearningHistory.make, h]
  · intro n thr h
    simp [LearningHistory.make, not_lt.mpr h]

/-- Witness for C9: `min_samples = 3` is rejected, `min_samples = 7`
accepted. -/
theorem claim_C9_min_samples_validation_witness :
    ((3 : ℤ) < 5 ∧
      LearningHistory.make 3 (3/10) = Except.error
        "min_samples must be at least 5 for reliable statistical calculations") ∧
    ((5 : ℤ) ≤ 7 ∧
      LearningHistory.make 7 (3/10) = Except.ok
        { min_samples := 7, volatility_threshold := 3/10, history := [] }) :=
  ⟨⟨by norm_num, claim_C9_min_samples_validation.1 3 (3/10) (by norm_num)⟩,
    ⟨by norm_num, claim_C9_min_samples_validation.2.1 7 (3/10) (by norm_num)⟩⟩

/-! ## C3: per-layer failure isolation -/

theorem processInteraction_pos (vh : VirtualHuman) (v : ℝ) (choice : ℕ)
    (fault : FaultSpec) (hv : -1 ≤ v ∧ v ≤ 1) :
    processInteraction vh v choice fault =
      (let r := reactiveStep vh.reactive v fault.reactivePoint
       let p := responsiveStep vh.responsive v r.2 choice fault.responsivePoint
       let f := reflectiveStep vh.reflective v r.2 p.2 fault.reflectivePoint
       ({ reactive := r.1, responsive := p.1, reflective := f.1,
           interaction_count := vh.interaction_count + 1 },
         { reactive := r.2, responsive := p.2, reflective := f.2,
           total_processing_time := r.2.response_time + 0.2 + 0.5,
           interaction_number := vh.interaction_count + 1 })) := by
  unfold processInteraction
  rw [if_pos hv]

/-- C3 counterexample: inject an exception in the reactive layer after the
error-history push (a valid internal fault point of its `try` block).  The
tick completes and the fallback reports zero error and the previous estimate,
but the layer's stored recent-error history has grown from `[]` to `[0.8]` —
it is *not* "exactly as it was before the tick" as the claim requires. -/
theorem claim_C3_counterexample :
    (tickResult VirtualHuman.init (4/5) 0 (.reactiveF .afterHistPush)).interaction_number = 1 ∧
    (tickResult VirtualHuman.init (4/5) 0 (.reactiveF .afterHistPush)).reactive.prediction_error = 0 ∧
    (tickState VirtualHuman.init (4/5) 0 (.reactiveF .afterHistPush)).reactive.recent_errors = [4/5 - 0] ∧
    VirtualHuman.init.reactive.recent_errors = [] ∧
    (tickState VirtualHuman.init (4/5) 0 (.reactiveF .afterHistPush)).reactive.recent_errors ≠
      VirtualHuman.init.reactive.recent_errors := by
  have hv : (-1 : ℝ) ≤ 4/5 ∧ (4/5 : ℝ) ≤ 1 := by norm_num
  have hrw := processInteraction_pos VirtualHuman.init (4/5) 0
    (.reactiveF .afterHistPush) hv
  refine ⟨?_, ?_, ?_, rfl, ?_⟩
  · rw [tickResult, hrw]
    rfl
  · rw [tickResult, hrw]
    rfl
  · rw [tickState, hrw]
    show pushBounded [] (4/5 - 0) 5 = [4/5 - 0]
    simp [pushBounded]
  · rw [tickState, hrw]
    show pushBounded [] (4/5 - 0) 5 ≠ []
    simp [pushBounded]

/-- C3 (amended).  Every layer's processing step catches an injected internal
failure and returns its safe fallback result (previous estimate, zero error,
neutral default state/response) instead of propagating: for a fault in exactly
one layer the tick still completes (the interaction counter advances and all
three slots are filled), the other two layers process exactly as they would
with the same inputs (their outputs and stored states are their normal
no-fault computations), and a reactive fault leaves the reactive estimate
unchanged.  Amendment: the failed layer's *other* stored state is not
guaranteed unchanged — mutations made before the fault point (e.g. the
error-history push) persist, see the counterexample. -/
theorem claim_C3_fault_isolation :
    ∀ (vh : VirtualHuman) (v : ℝ) (choice : ℕ), -1 ≤ v → v ≤ 1 →
      (∀ p : ReactiveFault,
        (tickResult vh v choice (.reactiveF p)).interaction_number =
          vh.interaction_count + 1 ∧
        (tickResult vh v choice (.reactiveF p)).reactive.emotion =
          vh.reactive.emotional_state ∧
        (tickResult vh v choice (.reactiveF p)).reactive.prediction_error = 0 ∧
        (tickState vh v choice (.reactiveF p)).reactive.emotional_state =
          vh.reactive.emotional_state ∧
        (tickState vh v choice (.reactiveF p)).responsive =
          (responsiveStep vh.responsive v
            (tickResult vh v choice (.reactiveF p)).reactive choice none).1 ∧
        (tickResult vh v choice (.reactiveF p)).responsive =
          (responsiveStep vh.responsive v
            (tickResult vh v choice (.reactiveF p)).reactive choice none).2 ∧
        (tickState vh v choice (.reactiveF p)).reflective =
          (reflectiveStep vh.reflective v
            (tickResult vh v choice (.reactiveF p)).reactive
            (tickResult vh v choice (.reactiveF p)).responsive none).1 ∧
        (tickResult vh v choice (.reactiveF p)).reflective =
          (reflectiveStep vh.reflective v
            (tickResult vh v choice (.reactiveF p)).reactive
            (tickResult vh v choice (.reactiveF p)).responsive none).2) ∧
      (∀ p : ResponsiveFault,
        (tickResult vh v choice (.responsiveF p)).interaction_number =
          vh.interaction_count + 1 ∧
        (tickState vh v choice (.responsiveF p)).reactive =
          (processSignal vh.reactive v).1 ∧
        (tickResult vh v choice (.responsiveF p)).reactive =
          (processSignal vh.reactive v).2 ∧
        (tickResult vh v choice (.responsiveF p)).responsive =
          responsiveFallback (tickResult vh v choice (.responsiveF p)).reactive ∧
        (tickState vh v choice (.responsiveF p)).reflective =
          (reflectiveStep vh.reflective v
            (tickResult vh v choice (.responsiveF p)).reactive
            (tickResult vh v choice (.responsiveF p)).responsive none).1 ∧
        (tickResult vh v choice (.responsiveF p)).reflective =
          (reflectiveStep vh.reflective v
            (tickResult vh v choice (.responsiveF p)).reactive
            (tickResult vh v choice (.responsiveF p)).responsive none).2) ∧
      (∀ p : ReflectiveFault,
        (tickResult vh v choice (.reflectiveF p)).interaction_number =
          vh.interaction_count + 1 ∧
        (tickState vh v choice (.reflectiveF p)).reactive =
          (processSignal vh.reactive v).1 ∧
        (tickResult vh v choice (.reflectiveF p)).reactive =
          (processSignal vh.reactive v).2 ∧
        (tickState vh v choice (.reflectiveF p)).responsive =
          (responsiveStep vh.responsive v
            (tickResult vh v choice (.reflectiveF p)).reactive choice none).1 ∧
        (tickResult vh v choice (.reflectiveF p)).responsive =
          (responsiveStep vh.responsive v
            (tickResult vh v choice (.reflectiveF p)).reactive choice none).2 ∧
        (tickResult vh v choice (.reflectiveF p)).reflective =
          reflectiveFallback (tickState vh v choice (.reflectiveF p)).reflective ∧
        (tickResult vh v choice (.reflectiveF p)).reflective.confidence = 0) := by
  intro vh v choice h1 h2
  have hv : -1 ≤ v ∧ v ≤ 1 := ⟨h1, h2⟩
  refine ⟨fun p => ?_, fun p => ?_, fun p => ?_⟩ <;>
    cases p <;>
    simp only [tickResult, tickState, processInteraction_pos vh v choice _ hv,
      FaultSpec.reactivePoint, FaultSpec.responsivePoint, FaultSpec.reflectivePoint,
      reactiveStep, responsiveStep, reflectiveStep, reactiveFallback,
      responsiveFallback, reflectiveFallback, and_self, and_true, true_and]

/-- Witness for C3: the initial session, signal 0.8, a reactive fault before
any mutation. -/
theorem claim_C3_fault_isolation_witness :
    (-1 ≤ (4/5 : ℝ) ∧ (4/5 : ℝ) ≤ 1) ∧
    (tickResult VirtualHuman.init (4/5) 0 (.reactiveF .beforeAll)).interaction_number =
      VirtualHuman.init.interaction_count + 1 ∧
    (tickResult VirtualHuman.init (4/5) 0 (.reactiveF .beforeAll)).reactive.emotion =
      VirtualHuman.init.reactive.emotional_state := by
  refine ⟨⟨by norm_num, by norm_num⟩, ?_, ?_⟩
  · exact ((claim_C3_fault_isolation VirtualHuman.init (4/5) 0 (by norm_num)
      (by norm_num)).1 .beforeAll).1
  · exact ((claim_C3_fault_isolation VirtualHuman.init (4/5) 0 (by norm_num)
      (by norm_num)).1 .beforeAll).2.1

/-! ## C6: non-finite observations

Python floats carry NaN and ±∞; the paths that decide C6 (the range check in
`SocialSignal.__post_init__` and `process_signal` fed a non-finite value) are
modelled over a symbolic float type with IEEE-754 special-value rules: every
comparison with NaN is false, arithmetic propagates NaN, and `np.clip` maps
±∞ to the corresponding bound.  Rounding plays no role on these paths. -/

inductive PyFloat
  | fin (x : ℝ)
  | nan
  | pinf
  | ninf

def PyFloat.isFinite : PyFloat → Bool
  | .fin _ => true
  | _ => false

def pyNeg : PyFloat → PyFloat
  | .fin x => .fin (-x)
  | .nan => .nan
  | .pinf => .ninf
  | .ninf => .pinf

def pyAdd : PyFloat → PyFloat → PyFloat
  | .nan, _ => .nan
  | _, .nan => .nan
  | .fin x, .fin y => .fin (x + y)
  | .pinf, .ninf => .nan
  | .ninf, .pinf => .nan
  | .pinf, _ => .pinf
  | _, .pinf => .pinf
  | .ninf, _ => .ninf
  | _, .ninf => .ninf

def pySub (a b : PyFloat) : PyFloat := pyAdd a (pyNeg b)

noncomputable def pyMul : PyFloat → PyFloat → PyFloat
  | .nan, _ => .nan
  | _, .nan => .nan
  | .fin x, .fin y => .fin (x * y)
  | .pinf, .pinf => .pinf
  | .pinf, .ninf => .ninf
  | .ninf, .pinf => .ninf
  | .ninf, .ninf => .pinf
  | .pinf, .fin y => if 0 < y then .pinf else if y < 0 then .ninf else .nan
  | .fin x, .pinf => if 0 < x then .pinf else if x < 0 then .ninf else .nan
  | .ninf, .fin y => if 0 < y then .ninf else if y < 0 then .pinf else .nan
  | .fin x, .ninf => if 0 < x then .ninf else if x < 0 then .pinf else .nan

/-- Division by a list length (always a positive literal on modelled paths). -/
noncomputable def pyDivNat : PyFloat → ℕ → PyFloat
  | _, 0 => .nan
  | .fin x, n => .fin (x / n)
  | .nan, _ => .nan
  | .pinf, _ => .pinf
  | .ninf, _ => .ninf

noncomputable def pySqrt : PyFloat → PyFloat
  | .fin x => if x < 0 then .nan else .fin (Real.sqrt x)
  | .nan => .nan
  | .pinf => .pinf
  | .ninf => .nan

def pySum (xs : List PyFloat) : PyFloat := xs.foldl pyAdd (.fin 0)

noncomputable def pyMean (xs : List PyFloat) : PyFloat :=
  pyDivNat (pySum xs) xs.length

/-- `np.std` over symbolic floats. -/
noncomputable def pyStd (xs : List PyFloat) : PyFloat :=
  let m := pyMean xs
  pySqrt (pyDivNat (pySum (xs.map (fun x => pyMul (pySub x m) (pySub x m))))
    xs.length)

/-- `np.clip(x, -1, 1)` on symbolic floats. -/
noncomputable def pyClip (x : PyFloat) : PyFloat :=
  match x with
  | .fin v => .fin (clip v (-1) 1)
  | .nan => .nan
  | .pinf => .fin 1
  | .ninf => .fin (-1)

/-- Python `a <= b` on floats: any comparison involving NaN is false. -/
def pyLe : PyFloat → PyFloat → Prop
  | .nan, _ => False
  | _, .nan => False
  | .fin x, .fin y => x ≤ y
  | .ninf, _ => True
  | _, .pinf => True
  | .pinf, _ => False
  | .fin _, .ninf => False

/-- The range check of `SocialSignal.__post_init__` (line 89):
`-1 <= value <= 1`; when it fails, `ValueError` is raised before any layer
touches the signal. -/
def validSignalValue (v : PyFloat) : Prop :=
  pyLe (.fin (-1)) v ∧ pyLe v (.fin 1)

structure ReactiveStateF where
  emotional_state : PyFloat
  attention_level : PyFloat
  prediction_error : PyFloat
  base_learning_rate : PyFloat
  recent_errors : List PyFloat
  memory_size : ℕ

def ReactiveStateF.init : ReactiveStateF :=
  { emotional_state := .fin 0
    attention_level := .fin 1
    prediction_error := .fin 0
    base_learning_rate := .fin 0.3
    recent_errors := []
    memory_size := 5 }

structure ReactiveOutputF where
  emotion : PyFloat
  prediction_error : PyFloat
  learning_rate : PyFloat

/-- `ReactiveLayer.process_signal` over symbolic floats (lines 119-140): the
`try` block contains no finiteness check and nothing on this path raises, so
the function is total — it runs to completion even on NaN input. -/
noncomputable def processSignalF (st : ReactiveStateF) (v : PyFloat) :
    ReactiveStateF × ReactiveOutputF :=
  let error := pySub v st.emotional_state
  let st1 := { st with prediction_error := error }
  let newErrors := pushBounded st1.recent_errors error st1.memory_size
  let st2 := { st1 with recent_errors := newErrors }
  let rate := if 0 < st2.recent_errors.length then
      pyMul st2.base_learning_rate (pyAdd (.fin 1) (pyStd st2.recent_errors))
    else st2.base_learning_rate
  let newEstimate := pyClip (pyAdd st2.emotional_state (pyMul rate error))
  let st3 := { st2 with emotional_state := newEstimate }
  (st3, ⟨st3.emotional_state, error, rate⟩)

/-- C6 counterexample: calling the prediction unit's update directly with the
non-finite observation NaN does not fail at all — the `try` block contains no
finiteness check — and it mutates state: the recent-error history grows to
`[NaN]` and the estimate becomes NaN, contradicting "fails with
`InvalidObservationError` before mutating any state". -/
theorem claim_C6_counterexample :
    (processSignalF ReactiveStateF.init PyFloat.nan).1.recent_errors = [PyFloat.nan] ∧
    (processSignalF ReactiveStateF.init PyFloat.nan).1.emotional_state = PyFloat.nan ∧
    (processSignalF ReactiveStateF.init PyFloat.nan).1.recent_errors ≠
      ReactiveStateF.init.recent_errors := by
  refine ⟨?_, ?_, ?_⟩ <;>
    simp [processSignalF, ReactiveStateF.init, pushBounded, pySub, pyAdd,
      pyNeg, pyMul, pyStd, pyMean, pySum, pyDivNat, pySqrt, pyClip]

/-- C6 (amended).  A non-finite observation (NaN or ±∞) never passes the
signal range validation `-1 <= value <= 1` (NaN comparisons are false and ±∞
is out of range), so `SocialSignal` construction raises `ValueError` before
any layer runs and no unit state is touched; a finite value passes exactly
when it lies in `[-1, 1]`.  The prediction unit itself performs no finiteness
check: handed NaN directly, it raises nothing and mutates its state (there is
no `InvalidObservationError` anywhere in the code). -/
theorem claim_C6_nonfinite_observation :
    (∀ v : PyFloat, v.isFinite = false → ¬ validSignalValue v) ∧
    (∀ x : ℝ, validSignalValue (.fin x) ↔ (-1 ≤ x ∧ x ≤ 1)) ∧
    ((processSignalF ReactiveStateF.init PyFloat.nan).1.emotional_state = PyFloat.nan ∧
      (processSignalF ReactiveStateF.init PyFloat.nan).1.prediction_error = PyFloat.nan ∧
      (processSignalF ReactiveStateF.init PyFloat.nan).1.recent_errors = [PyFloat.nan]) := by
  refine ⟨?_, ?_, ?_, ?_, ?_⟩
  · intro v hv
    cases v with
    | fin x => simp [PyFloat.isFinite] at hv
    | nan => simp [validSignalValue, pyLe]
    | pinf => simp [validSignalValue, pyLe]
    | ninf => simp [validSignalValue, pyLe]
  · intro x
    simp [validSignalValue, pyLe]
  · simp [processSignalF, ReactiveStateF.init, pushBounded, pySub, pyAdd,
      pyNeg, pyMul, pyStd, pyMean, pySum, pyDivNat, pySqrt, pyClip]
  · simp [processSignalF, ReactiveStateF.init, pushBounded, pySub, pyAdd, pyNeg]
  · simp [processSignalF, ReactiveStateF.init, pushBounded, pySub, pyAdd, pyNeg]

/-- Witness for C6: `+∞` is non-finite and fails validation. -/
theorem claim_C6_nonfinite_observation_witness :
    PyFloat.isFinite PyFloat.pinf = false ∧ ¬ validSignalValue PyFloat.pinf :=
  ⟨rfl, claim_C6_nonfinite_observation.1 PyFloat.pinf rfl⟩

end Nova
